import Mathlib

/-!
Shallow embedding of the clinical-documentation pipeline of this repository:
the guardrails service (`src/unnamed/part_006`), the LLM orchestration
service (`src/unnamed/part_007`), the zod validation schemas
(`src/backend/src/schemas/validation.ts`) and the `/analyze` route gate
(`src/unnamed/part_005`).

Modelling conventions:
- JavaScript strings are Lean `String`s; `String.prototype.includes` and
  friends are embedded as executable scans over `List Char`.
- The external Gemini call `model.generateContent(prompt)` is modelled by a
  function `behavior : String → CallResult` from model name to outcome (the
  prompt is fixed for one stage invocation), and model initialization by
  `inited : String → Bool` (the `this.models` map).
- `JSON.parse` together with the per-stage regex cleanup of the raw model
  text is an external platform facility; each stage takes it as a parameter
  `parse : String → Option α` (`none` models a parse that throws).
- Mutable instance state `currentModelName` is threaded explicitly as a
  `String` value.
- Log-only fields that no claim mentions (timestamps, the `prompt` and
  `response` echo fields of stage results, the `traceLog`) are omitted.
-/

/-- Case-sensitive test that `needle` is a prefix of `haystack`
(character-wise equality), used to embed JS `String.prototype.includes`. -/
def listStarts : List Char → List Char → Bool
  | [], _ => true
  | _ :: _, [] => false
  | a :: as, b :: bs => (a == b) && listStarts as bs

/-- Case-sensitive substring test on character lists: JS `haystack.includes(needle)`. -/
def listHasSub (needle : List Char) : List Char → Bool
  | [] => needle.isEmpty
  | c :: cs => listStarts needle (c :: cs) || listHasSub needle cs

/-- JS `haystack.includes(needle)` on strings. -/
def strHasSub (haystack needle : String) : Bool :=
  listHasSub needle.toList haystack.toList

/-- JS `s.toLowerCase()` (ASCII case folding, which is all the embedded
string tables exercise). -/
def lowerStr (s : String) : String :=
  String.mk (s.toList.map Char.toLower)

/-- Case-insensitive prefix test (the `i` regex flag): `key` matches at the
head of the text when the case-folded characters agree. -/
def ciStarts : List Char → List Char → Bool
  | [], _ => true
  | _ :: _, [] => false
  | k :: ks, c :: cs => (Char.toLower c == Char.toLower k) && ciStarts ks cs

/-- Case-insensitive occurrence test: `new RegExp(key, 'gi').test(s)` for a
literal `key` (the softening table keys contain no regex metacharacters). -/
def ciOccurs (key : List Char) : List Char → Bool
  | [] => key.isEmpty
  | c :: cs => ciStarts key (c :: cs) || ciOccurs key cs

/-- Fueled global case-insensitive replacement: every non-overlapping
occurrence of `key` (scanning left to right, resuming after each
replacement, replacements never rescanned) is replaced by `val`.  This is
`s.replace(new RegExp(key, 'gi'), val)` for a literal `key`.  The fuel is
only a structural-recursion device; `softenOne` supplies `s.length`, which
is always sufficient because every step consumes at least one character. -/
def softenOneFuel (key val : List Char) : Nat → List Char → List Char
  | 0, s => s
  | _ + 1, [] => []
  | fuel + 1, c :: cs =>
    if ciStarts key (c :: cs) then
      val ++ softenOneFuel key val fuel (List.drop (key.length - 1) cs)
    else
      c :: softenOneFuel key val fuel cs

/-- Global case-insensitive replacement of `key` by `val` in `s`. -/
def softenOne (key val : List Char) (s : List Char) : List Char :=
  softenOneFuel key val s.length s

/-- The `DEFINITIVE_CLAIMS` replacement table of the guardrails service, in
object-literal insertion order (the order `Object.entries` yields). -/
def definitiveClaims : List (String × String) :=
  [("will cure", "may help improve"),
   ("will heal", "may help heal"),
   ("will fix", "may help address"),
   ("will eliminate", "may help reduce"),
   ("will prevent", "may help prevent"),
   ("guarantees", "may provide"),
   ("definitely", "likely"),
   ("certainly", "probably"),
   ("always works", "often helps"),
   ("never fails", "typically effective")]

/-- Result of `GuardrailsService.softenMedicalClaims`. -/
structure SoftenResult where
  text : String
  changesMade : List String
deriving DecidableEq, Repr

/-- One iteration of the `Object.entries(DEFINITIVE_CLAIMS).forEach` loop:
if the phrase occurs (the `regex.test` guard), record the change and
replace every occurrence; otherwise leave the accumulator unchanged. -/
def softenStep (acc : List Char × List String) (rule : String × String) :
    List Char × List String :=
  if ciOccurs rule.1.toList acc.1 then
    (softenOne rule.1.toList rule.2.toList acc.1,
     acc.2 ++ ["Changed \"" ++ rule.1 ++ "\" to \"" ++ rule.2 ++ "\""])
  else acc

/-- `GuardrailsService.softenMedicalClaims`: fold the replacement table over
the text, collecting one change record per rule that fired. -/
def softenMedicalClaims (text : String) : SoftenResult :=
  ⟨String.mk (definitiveClaims.foldl softenStep (text.toList, [])).1,
   (definitiveClaims.foldl softenStep (text.toList, [])).2⟩

/-- The deterministic keyword list of the guardrails fallback emergency
check (`urgentTerms` in `checkEmergencyKeywords`). -/
def urgentTerms : List String :=
  ["chest pain", "suicide", "can\x27t breathe", "stroke", "heart attack"]

/-- Shape returned by `GuardrailsService.checkEmergencyKeywords`. -/
structure EmergencyCheck where
  hasEmergency : Bool
  detectedKeywords : List String
  severity : String
  recommendation : String
deriving DecidableEq, Repr

/-- The deterministic fallback branch of `checkEmergencyKeywords` (the
`catch` block): filter the configured phrases by case-lowered substring
containment; any hit means `hasEmergency` with severity `high`. -/
def checkEmergencyFallback (transcript : String) : EmergencyCheck :=
  let found := urgentTerms.filter (fun term => strHasSub (lowerStr transcript) term)
  { hasEmergency := !found.isEmpty
    detectedKeywords := found
    severity := if found.isEmpty then "low" else "high"
    recommendation :=
      if found.isEmpty then "Standard clinical review recommended"
      else "Urgent medical attention may be required" }

/-- `GuardrailsService.checkEmergencyKeywords`: the primary AI path
(model call, JSON parse and field defaulting) is modelled as an
`Except String EmergencyCheck`; any failure of that path takes the
deterministic keyword fallback. -/
def checkEmergencyKeywords (transcript : String)
    (primary : Except String EmergencyCheck) : EmergencyCheck :=
  match primary with
  | .ok analysis => analysis
  | .error _ => checkEmergencyFallback transcript

/-- `GuardrailsService.generateComplianceBanner`. -/
def generateComplianceBanner (hasEmergency : Bool) : String :=
  if !hasEmergency then
    "Draft only; clinician review required; not a medical device; may be inaccurate."
  else
    "⚠️ URGENT: Emergency indicators detected. Draft only; clinician review required; not a medical device; may be inaccurate. This is NOT a triage tool - follow emergency protocols."

/-- Outcome of one `model.generateContent(prompt)` call. -/
inductive CallResult where
  | ok (resp : String)
  | err (msg : String)
deriving DecidableEq, Repr

/-- Quota/rate-limit classification used by both fallback executors:
`error.message?.includes('429') || error.message?.includes('quota')`. -/
def isQuotaError (msg : String) : Bool :=
  strHasSub msg "429" || strHasSub msg "quota"

/-- The candidate loop of `LLMService.executeWithFallback`: skip
uninitialized models; return the first success together with the model name
(the new `currentModelName`); on a quota error remember it and continue; on
any other error throw it immediately; when the candidates run out, throw
the last recorded error (or the generic message when none was recorded). -/
def fallbackLoop (inited : String → Bool) (behavior : String → CallResult) :
    List String → Option String → Except String (String × String)
  | [], lastErr => .error (lastErr.getD "All models failed")
  | m :: rest, lastErr =>
    if inited m = false then fallbackLoop inited behavior rest lastErr
    else
      match behavior m with
      | .ok r => .ok (r, m)
      | .err e =>
        if isQuotaError e then fallbackLoop inited behavior rest (some e)
        else .error e

/-- The candidate suffix the loop iterates over: the loop index starts at
`modelFallbackOrder.indexOf(currentModelName)`.  When the current model is
absent the JS loop starts at index -1, reads `undefined` once (skipped by
the `this.models` guard) and then scans the whole order. -/
def candidatesFrom (order : List String) (current : String) : List String :=
  match order.dropWhile (fun m => m != current) with
  | [] => order
  | l => l

/-- `LLMService.executeWithFallback`: run the loop from the sticky cursor;
a success carries the response text and the updated `currentModelName`. -/
def executeWithFallback (order : List String) (inited : String → Bool)
    (behavior : String → CallResult) (current : String) :
    Except String (String × String) :=
  fallbackLoop inited behavior (candidatesFrom order current) none

/-- The candidate loop of `GuardrailsService.executeWithFallback`: it has
no cursor (it always scans the full static order) and its `catch` block
falls through to `continue` for quota errors and non-quota errors alike
(the quota test only selects a log message), so it advances on every
failure and throws only once all candidates are exhausted. -/
def guardrailLoop (inited : String → Bool) (behavior : String → CallResult) :
    List String → Option String → Except String String
  | [], lastErr => .error (lastErr.getD "All guardrail models failed")
  | m :: rest, lastErr =>
    if inited m = false then guardrailLoop inited behavior rest lastErr
    else
      match behavior m with
      | .ok r => .ok r
      | .err e => guardrailLoop inited behavior rest (some e)

/-- Speaker map inside the speaker-identification stage result. -/
structure Speakers where
  doctor : String
  patient : String
  others : List String
deriving DecidableEq, Repr

/-- Parsed result of the speaker-identification stage. -/
structure SpeakerInfo where
  speakers : Speakers
  confidence : String
  annotatedTranscript : String
deriving DecidableEq, Repr

/-- The default structure the speaker stage returns when the model call or
the JSON parse fails. -/
def defaultSpeakerInfo (transcript : String) : SpeakerInfo :=
  ⟨⟨"Doctor", "Patient", []⟩, "low", transcript⟩

/-- `LLMService.identifySpeakers`: call the executor, parse the response;
the surrounding `try/catch` turns an executor failure or a parse failure
into the default structure.  The returned `String` is the updated
`currentModelName` (unchanged when the executor failed). -/
def identifySpeakers (transcript : String) (order : List String)
    (inited : String → Bool) (behavior : String → CallResult)
    (current : String) (parse : String → Option SpeakerInfo) :
    SpeakerInfo × String :=
  match executeWithFallback order inited behavior current with
  | .ok (text, cur) =>
    match parse text with
    | some info => (info, cur)
    | none => (defaultSpeakerInfo transcript, cur)
  | .error _ => (defaultSpeakerInfo transcript, current)

/-- SOAP note shape (the zod `SOAPNoteSchema` object). -/
structure SOAPNote where
  subjective : String
  objective : String
  assessment : String
  plan : String
deriving DecidableEq, Repr

/-- `LLMService.generateSOAPNote`: this stage has no default — its `catch`
rethrows `'Failed to generate SOAP note'` whether the executor or the
parse failed, aborting the pipeline run. -/
def generateSOAPNote (order : List String) (inited : String → Bool)
    (behavior : String → CallResult) (current : String)
    (parse : String → Option SOAPNote) :
    Except String (SOAPNote × String) :=
  match executeWithFallback order inited behavior current with
  | .ok (text, cur) =>
    match parse text with
    | some note => .ok (note, cur)
    | none => .error "Failed to generate SOAP note"
  | .error _ => .error "Failed to generate SOAP note"

/-- Problem object as parsed from the problem-extraction stage (the model
also emits a `source` field, which the final assembly drops). -/
structure ParsedProblem where
  description : String
  rationale : String
  source : String
deriving DecidableEq, Repr

/-- `LLMService.extractProblems`: its `catch` converts an executor failure
or a parse failure into the empty problem list, so this stage never
throws (hence the result is always `Except.ok`). -/
def extractProblems (order : List String) (inited : String → Bool)
    (behavior : String → CallResult) (current : String)
    (parse : String → Option (List ParsedProblem)) :
    Except String (List ParsedProblem × String) :=
  match executeWithFallback order inited behavior current with
  | .ok (text, cur) =>
    match parse text with
    | some ps => .ok (ps, cur)
    | none => .ok ([], cur)
  | .error _ => .ok ([], current)

/-- ICD-10 code object as parsed from the diagnosis-coding stage (the
model also echoes the `problem` text, dropped by the final assembly). -/
structure ParsedICDCode where
  problem : String
  code : String
  description : String
  confidence : String
deriving DecidableEq, Repr

/-- `LLMService.generateICD10Codes`: its `catch` converts an executor
failure or a parse failure into the empty code list, so this stage never
throws either. -/
def generateICD10Codes (order : List String) (inited : String → Bool)
    (behavior : String → CallResult) (current : String)
    (parse : String → Option (List ParsedICDCode)) :
    Except String (List ParsedICDCode × String) :=
  match executeWithFallback order inited behavior current with
  | .ok (text, cur) =>
    match parse text with
    | some cs => .ok (cs, cur)
    | none => .ok ([], cur)
  | .error _ => .ok ([], current)

/-- MBS consultation-level object (`parsed.consultationLevel`). -/
structure ConsultLevel where
  mbsItem : String
  description : String
  duration : String
  justification : String
  confidence : String
deriving DecidableEq, Repr

/-- Additional MBS billing item (`parsed.additionalMbsItems` entries). -/
structure MBSItem where
  mbsItem : String
  description : String
  justification : String
  confidence : String
deriving DecidableEq, Repr

/-- Parsed JSON of the billing stage before field defaulting; each field
is optional because the model may omit it. -/
structure ParsedBilling where
  consultationLevel : Option ConsultLevel
  additionalMbsItems : Option (List MBSItem)
  billingHint : Option String
deriving DecidableEq, Repr

/-- The transformed billing-stage result (`emLevel`, `cptCodes`,
`billingHint`) that `analyzeTranscript` consumes. -/
structure BillingResult where
  emLevel : ConsultLevel
  cptCodes : List MBSItem
  billingHint : String
deriving DecidableEq, Repr

/-- Default structure substituted when every billing parse attempt fails
(the `Method 3` branch of `generateBillingCodes`). -/
def defaultParsedBilling : ParsedBilling :=
  ⟨some ⟨"23", "Standard GP consultation (Level B)", "6-20 minutes",
         "Based on encounter complexity", "low"⟩,
   some [],
   some "Unable to fully parse AI response - default consultation level suggested"⟩

/-- `LLMService.generateBillingCodes`: parse (with the default structure on
total parse failure), default any missing field, then transform
`consultationLevel`/`additionalMbsItems` into `emLevel`/`cptCodes`.  The
outer `catch` (executor failure) returns the safe default structure.  Note
that no branch truncates or filters `additionalMbsItems`. -/
def generateBillingCodes (order : List String) (inited : String → Bool)
    (behavior : String → CallResult) (current : String)
    (parse : String → Option ParsedBilling) :
    Except String (BillingResult × String) :=
  match executeWithFallback order inited behavior current with
  | .ok (text, cur) =>
    let parsed := (parse text).getD defaultParsedBilling
    .ok ({ emLevel := parsed.consultationLevel.getD
             ⟨"23", "Standard consultation", "Unknown", "Default assignment", "low"⟩
           cptCodes := parsed.additionalMbsItems.getD []
           billingHint := parsed.billingHint.getD "Standard billing applies" },
         cur)
  | .error _ =>
    .ok ({ emLevel := ⟨"23", "Standard GP consultation (Level B)", "6-20 minutes",
                       "Default due to processing error", "low"⟩
           cptCodes := []
           billingHint := "MBS billing code generation encountered an error. Please review manually." },
         current)

/-- Problem entry of the final result (description and rationale only). -/
structure Problem where
  description : String
  rationale : String
deriving DecidableEq, Repr

/-- Diagnosis-code entry of the final result (code, description,
confidence). -/
structure ICD10Entry where
  code : String
  description : String
  confidence : String
deriving DecidableEq, Repr

/-- The `fullResponse` object assembled at the end of
`LLMService.analyzeTranscript` before guardrails run. -/
structure FullResponse where
  soapNote : SOAPNote
  problems : List Problem
  icd10Codes : List ICD10Entry
  cptCodes : List MBSItem
  emLevel : ConsultLevel
  billingHint : String
  complianceBanner : String
  annotatedTranscript : String
deriving DecidableEq, Repr

/-- The `fullResponse` assembly of `analyzeTranscript` (lines 653-670 of
the LLM service): map the parsed problems and ICD codes down to the fields
the result keeps, and pass the billing stage output through.  No cap and
no lexical filter is applied to either code list (the imported
`LLMResponseSchema` is never invoked). -/
def assembleFullResponse (soap : SOAPNote) (problems : List ParsedProblem)
    (icdCodes : List ParsedICDCode) (billing : BillingResult)
    (annotated : String) : FullResponse :=
  { soapNote := soap
    problems := problems.map (fun p => ⟨p.description, p.rationale⟩)
    icd10Codes := icdCodes.map (fun c => ⟨c.code, c.description, c.confidence⟩)
    cptCodes := billing.cptCodes
    emLevel := billing.emLevel
    billingHint := billing.billingHint
    complianceBanner := "This is AI-generated documentation for review only. Verify all codes and documentation before use."
    annotatedTranscript := annotated }

/-- The final guarded response: the assembled result with its free-text
fields rewritten plus the emergency and guardrail-audit fields added by
`GuardrailsService.applyGuardrails`. -/
structure GuardedResponse where
  soapNote : SOAPNote
  problems : List Problem
  icd10Codes : List ICD10Entry
  cptCodes : List MBSItem
  emLevel : ConsultLevel
  billingHint : String
  complianceBanner : String
  annotatedTranscript : String
  hasEmergencyKeywords : Bool
  emergencyFlags : List String
  emergencySeverity : String
  emergencyRecommendation : String
  guardrailActions : List String
deriving DecidableEq, Repr

/-- `GuardrailsService.applyGuardrails`: run the emergency check, soften
each SOAP field and (when non-empty, the JS truthiness test) the billing
hint, rebuild the action log, and attach the emergency fields and the
compliance banner.  The two code lists are not touched. -/
def applyGuardrails (result : FullResponse) (transcript : String)
    (primary : Except String EmergencyCheck) : GuardedResponse :=
  let ec := checkEmergencyKeywords transcript primary
  let emergencyActs :=
    if ec.hasEmergency then
      ["Emergency detected: " ++ ec.severity ++ " severity",
       "Conditions found: " ++ String.intercalate ", " ec.detectedKeywords]
    else ["No emergency indicators detected"]
  let subj := softenMedicalClaims result.soapNote.subjective
  let obj := softenMedicalClaims result.soapNote.objective
  let assess := softenMedicalClaims result.soapNote.assessment
  let plan := softenMedicalClaims result.soapNote.plan
  let billing :=
    if result.billingHint = "" then (result.billingHint, ([] : List String))
    else
      ((softenMedicalClaims result.billingHint).text,
       (softenMedicalClaims result.billingHint).changesMade.map (fun c => "Billing: " ++ c))
  let totalChanges :=
    subj.changesMade.map (fun c => "Subjective: " ++ c) ++
    obj.changesMade.map (fun c => "Objective: " ++ c) ++
    assess.changesMade.map (fun c => "Assessment: " ++ c) ++
    plan.changesMade.map (fun c => "Plan: " ++ c) ++
    billing.2
  let softenActs :=
    if totalChanges.isEmpty then ["No medical claims needed softening"]
    else ("Softened " ++ toString totalChanges.length ++ " medical claims:") :: totalChanges
  { soapNote := ⟨subj.text, obj.text, assess.text, plan.text⟩
    problems := result.problems
    icd10Codes := result.icd10Codes
    cptCodes := result.cptCodes
    emLevel := result.emLevel
    billingHint := billing.1
    complianceBanner := generateComplianceBanner ec.hasEmergency
    annotatedTranscript := result.annotatedTranscript
    hasEmergencyKeywords := ec.hasEmergency
    emergencyFlags := ec.detectedKeywords
    emergencySeverity := ec.severity
    emergencyRecommendation := ec.recommendation
    guardrailActions :=
      emergencyActs ++ softenActs ++ ["Added compliance banner and disclaimers"] }

/-- ICD-10 code pattern of `ICD10CodeSchema` in `validation.ts`:
`^[A-Z]\d{2}(\.\d{1,4})?$`. -/
def icd10PatternOk (s : String) : Bool :=
  match s.toList with
  | c :: d1 :: d2 :: rest =>
    c.isUpper && d1.isDigit && d2.isDigit &&
    (match rest with
     | [] => true
     | dot :: ds =>
       (dot == '.') && decide (1 ≤ ds.length) && decide (ds.length ≤ 4) &&
       ds.all (fun d => d.isDigit))
  | _ => false

/-- CPT code pattern of `CPTCodeSchema` in `validation.ts`: `^\d{5}$`. -/
def cptPatternOk (s : String) : Bool :=
  decide (s.toList.length = 5) && s.toList.all (fun d => d.isDigit)

/-- The list caps of `LLMResponseSchema` in `validation.ts`
(`.max(3, "Maximum 3 ICD-10 codes")` / `.max(3, "Maximum 3 CPT codes")`). -/
def llmResponseCapsOk (icd10Codes : List ICD10Entry) (cptCodes : List MBSItem) : Bool :=
  decide (icd10Codes.length ≤ 3) && decide (cptCodes.length ≤ 3)

/-- Reply of the `/analyze` route: either the HTTP 400 acknowledgment
outcome or the analysis result. -/
inductive AnalyzeReply (α : Type) where
  | emergencyAck (message : String) (keywords : List String) (severity : String)
  | success (result : α)
deriving DecidableEq, Repr

/-- The emergency gate of the `fastify.post('/analyze')` handler: after the
emergency check, if `hasEmergency` and `acknowledgeEmergency` is not
explicitly `true` (the field is optional; `!acknowledgeEmergency` holds for
`undefined` and `false` alike), reply 400 with the detected conditions and
severity; only otherwise call `llmService.analyzeTranscript`, modelled by
the parameter `analyze`. -/
def analyzeRoute {α : Type} (transcript : String) (acknowledgeEmergency : Option Bool)
    (primary : Except String EmergencyCheck) (analyze : String → α) :
    AnalyzeReply α :=
  let ec := checkEmergencyKeywords transcript primary
  if ec.hasEmergency && !(acknowledgeEmergency.getD false) then
    .emergencyAck (ec.recommendation ++ ". Please acknowledge that this is not a triage tool.")
      ec.detectedKeywords ec.severity
  else
    .success (analyze transcript)

/-! ## Helper lemmas -/

/-- Filtering a list is empty exactly when no element satisfies the predicate. -/
theorem filter_isEmpty_not_any {α : Type} (p : α → Bool) (l : List α) :
    (l.filter p).isEmpty = !(l.any p) := by
  induction l with
  | nil => rfl
  | cons a l ih =>
    by_cases h : p a = true
    · simp [List.filter_cons, h]
    · simp [List.filter_cons, h, ih]

/-- A successful run of the LLM fallback loop returns a model name drawn
from the candidate list it was given. -/
theorem fallbackLoop_ok_mem (inited : String → Bool) (behavior : String → CallResult) :
    ∀ (l : List String) (lastErr : Option String) (r m : String),
      fallbackLoop inited behavior l lastErr = .ok (r, m) → m ∈ l := by
  intro l
  induction l with
  | nil => intro lastErr r m h; simp [fallbackLoop] at h
  | cons a l ih =>
    intro lastErr r m h
    unfold fallbackLoop at h
    by_cases ha : inited a = false
    · rw [if_pos ha] at h
      exact List.mem_cons_of_mem _ (ih _ _ _ h)
    · rw [if_neg ha] at h
      cases hb : behavior a with
      | ok rr =>
        rw [hb] at h
        have hm : m = a := by
          have := h
          simp at this
          exact this.2.symm
        rw [hm]; exact List.mem_cons_self _ _
      | err e =>
        rw [hb] at h
        by_cases hq : isQuotaError e = true
        · simp [hq] at h
          exact List.mem_cons_of_mem _ (ih _ _ _ h)
        · simp [hq] at h

/-- Replacement with a fueled scan leaves a text without any occurrence of
the key unchanged. -/
theorem softenOneFuel_of_not_occurs (key val : List Char) :
    ∀ (fuel : Nat) (s : List Char), ciOccurs key s = false →
      softenOneFuel key val fuel s = s := by
  intro fuel
  induction fuel with
  | zero => intro s _; rfl
  | succ n ih =>
    intro s h
    cases s with
    | nil => rfl
    | cons c cs =>
      have h2 : (ciStarts key (c :: cs) || ciOccurs key cs) = false := h
      have hs : ciStarts key (c :: cs) = false := by
        cases hc : ciStarts key (c :: cs)
        · rfl
        · rw [hc] at h2; simp at h2
      have ht : ciOccurs key cs = false := by
        cases hc : ciOccurs key cs
        · rfl
        · rw [hc] at h2; simp at h2
      simp [softenOneFuel, hs, ih cs ht]

/-- The softening fold is the identity on a text in which no table phrase
occurs. -/
theorem foldl_softenStep_fixed (rules : List (String × String)) (t : List Char)
    (ch : List String) (h : ∀ r ∈ rules, ciOccurs r.1.toList t = false) :
    rules.foldl softenStep (t, ch) = (t, ch) := by
  induction rules with
  | nil => rfl
  | cons r rs ih =>
    have h1 : ciOccurs r.1.toList t = false := h r (List.mem_cons_self _ _)
    have h1d : ciOccurs r.1.data t = false := h1
    have hstep : softenStep (t, ch) r = (t, ch) := by simp [softenStep, h1, h1d]
    rw [List.foldl_cons, hstep]
    exact ih (fun r2 hr2 => h r2 (List.mem_cons_of_mem _ hr2))

/-! ## Claim theorems -/

/-- C3: whenever the emergency check reports `hasEmergency = true` and
`acknowledgeEmergency` is not explicitly `true`, the `/analyze` handler
returns the acknowledgment-required outcome carrying the detected
conditions and the severity, and this reply is the same for every possible
analysis function — so `analyzeTranscript` is never invoked. -/
theorem emergency_gate_blocks_analysis {α : Type} (transcript : String)
    (ack : Option Bool) (primary : Except String EmergencyCheck)
    (h1 : (checkEmergencyKeywords transcript primary).hasEmergency = true)
    (h2 : ack ≠ some true) :
    ∀ analyze : String → α,
      analyzeRoute transcript ack primary analyze =
        .emergencyAck
          ((checkEmergencyKeywords transcript primary).recommendation ++
            ". Please acknowledge that this is not a triage tool.")
          (checkEmergencyKeywords transcript primary).detectedKeywords
          (checkEmergencyKeywords transcript primary).severity := by
  intro analyze
  have hga : ack.getD false = false := by
    cases ack with
    | none => rfl
    | some b =>
      cases b with
      | false => rfl
      | true => exact absurd rfl h2
  simp [analyzeRoute, h1, hga]

/-- Witness for C3: `acknowledgeEmergency` unset, AI emergency check down,
transcript mentioning suicide — the handler replies with the
acknowledgment-required outcome. -/
theorem emergency_gate_blocks_analysis_witness :
    analyzeRoute (α := Bool) "I have been thinking about suicide" none
        (Except.error "model down") (fun _ => true) =
      .emergencyAck
        "Urgent medical attention may be required. Please acknowledge that this is not a triage tool."
        ["suicide"] "high" := by
  have h := emergency_gate_blocks_analysis (α := Bool) "I have been thinking about suicide"
    none (Except.error "model down") (by decide) (by decide) (fun _ => true)
  exact h.trans (by decide)

/-- C4: when the primary AI emergency call fails for any reason, the
deterministic fallback reports an emergency with severity high exactly when
the lowercased transcript contains a configured high-risk phrase, and no
emergency with severity low otherwise. -/
theorem emergency_fallback_keyword_safe (transcript e : String)
    (primary : Except String EmergencyCheck) (hp : primary = .error e) :
    ((urgentTerms.any fun t => strHasSub (lowerStr transcript) t) = true →
        (checkEmergencyKeywords transcript primary).hasEmergency = true ∧
        (checkEmergencyKeywords transcript primary).severity = "high") ∧
    ((urgentTerms.any fun t => strHasSub (lowerStr transcript) t) = false →
        (checkEmergencyKeywords transcript primary).hasEmergency = false ∧
        (checkEmergencyKeywords transcript primary).severity = "low") := by
  subst hp
  have hfe : (urgentTerms.filter fun t => strHasSub (lowerStr transcript) t).isEmpty
      = !(urgentTerms.any fun t => strHasSub (lowerStr transcript) t) :=
    filter_isEmpty_not_any _ _
  constructor
  · intro h
    constructor <;> simp [checkEmergencyKeywords, checkEmergencyFallback, hfe, h]
  · intro h
    constructor <;> simp [checkEmergencyKeywords, checkEmergencyFallback, hfe, h]

/-- Witness for C4: the AI call fails entirely and the transcript contains
"Chest Pain" (mixed case); the fallback still reports a high-severity
emergency. -/
theorem emergency_fallback_keyword_safe_witness :
    (checkEmergencyKeywords "Patient reports crushing Chest Pain"
        (Except.error "timeout")).hasEmergency = true ∧
    (checkEmergencyKeywords "Patient reports crushing Chest Pain"
        (Except.error "timeout")).severity = "high" :=
  (emergency_fallback_keyword_safe "Patient reports crushing Chest Pain" "timeout"
    _ rfl).1 (by decide)

/-- C9: if every successful model call yields an unparsable response (or
the call itself fails), the speaker-identification stage returns the
defined default: generic labels, low confidence, and the original
transcript unchanged as the annotated transcript. -/
theorem identifySpeakers_default_on_failure (transcript : String) (order : List String)
    (inited : String → Bool) (behavior : String → CallResult) (current : String)
    (parse : String → Option SpeakerInfo)
    (h : ∀ text cur, executeWithFallback order inited behavior current = .ok (text, cur) →
      parse text = none) :
    (identifySpeakers transcript order inited behavior current parse).1 =
      ⟨⟨"Doctor", "Patient", []⟩, "low", transcript⟩ := by
  cases hx : executeWithFallback order inited behavior current with
  | ok p =>
    have hp : parse p.1 = none := h p.1 p.2 hx
    simp [identifySpeakers, hx, hp, defaultSpeakerInfo]
  | error e => simp [identifySpeakers, hx, defaultSpeakerInfo]

/-- Witness for C9: the model answers with un-parsable prose; the stage
returns the default structure with the transcript unchanged. -/
theorem identifySpeakers_default_on_failure_witness :
    (identifySpeakers "Doctor: hello" ["g"] (fun _ => true)
        (fun _ => .ok "no json here") "g" (fun _ => none)).1 =
      ⟨⟨"Doctor", "Patient", []⟩, "low", "Doctor: hello"⟩ :=
  identifySpeakers_default_on_failure "Doctor: hello" ["g"] _ _ "g" _ (fun _ _ _ => rfl)

/-- C10: the two fallback executors differ on non-transient errors: on a
candidate failing with a non-quota error, the LLM-service loop rethrows
that error immediately, while the guardrails loop advances to the
remaining candidates carrying the error as the last one seen. -/
theorem fallback_executors_inequivalent (inited : String → Bool)
    (behavior : String → CallResult) (m e : String) (rest : List String)
    (lastErr : Option String)
    (hi : inited m = true) (hb : behavior m = .err e) (hq : isQuotaError e = false) :
    fallbackLoop inited behavior (m :: rest) lastErr = .error e ∧
    guardrailLoop inited behavior (m :: rest) lastErr =
      guardrailLoop inited behavior rest (some e) := by
  constructor
  · simp [fallbackLoop, hi, hb, hq]
  · simp [guardrailLoop, hi, hb]

/-- Witness for C10: a non-quota failure on the first model makes the LLM
loop abort with that error while the guardrails loop moves on (and here
succeeds on the second model). -/
theorem fallback_executors_inequivalent_witness :
    fallbackLoop (fun _ => true)
        (fun n => if n == "a" then .err "boom" else .ok "fine") ["a", "b"] none =
      .error "boom" ∧
    guardrailLoop (fun _ => true)
        (fun n => if n == "a" then .err "boom" else .ok "fine") ["a", "b"] none =
      guardrailLoop (fun _ => true)
        (fun n => if n == "a" then .err "boom" else .ok "fine") ["b"] (some "boom") :=
  fallback_executors_inequivalent _ _ "a" "boom" ["b"] none rfl (by decide) (by decide)

/-- C8: given the ordered chain [A, B, C] with A and B failing on
quota/rate-limit errors and C succeeding, the executor returns C's
response and leaves the cursor at C; and in general a successful run only
ever leaves the cursor inside the candidate suffix that starts at the old
cursor — it never moves backward. -/
theorem fallback_advances_on_transient :
    (∀ (A B C rC eA eB : String) (inited : String → Bool) (behavior : String → CallResult),
        inited A = true → inited B = true → inited C = true →
        behavior A = .err eA → isQuotaError eA = true →
        behavior B = .err eB → isQuotaError eB = true →
        behavior C = .ok rC →
        executeWithFallback [A, B, C] inited behavior A = .ok (rC, C)) ∧
    (∀ (order : List String) (inited : String → Bool) (behavior : String → CallResult)
        (current r cur : String),
        executeWithFallback order inited behavior current = .ok (r, cur) →
        cur ∈ candidatesFrom order current) := by
  constructor
  · intro A B C rC eA eB inited behavior hiA hiB hiC hbA hqA hbB hqB hbC
    have hcand : candidatesFrom [A, B, C] A = [A, B, C] := by
      simp [candidatesFrom, List.dropWhile]
    simp [executeWithFallback, hcand, fallbackLoop, hiA, hbA, hqA, hiB, hbB, hqB, hiC, hbC]
  · intro order inited behavior current r cur h
    exact fallbackLoop_ok_mem _ _ _ _ _ _ h

/-- Witness for C8: the real fallback order with the first two models
rate-limited and the third healthy; the executor returns the third model's
response with the cursor on that model. -/
theorem fallback_advances_on_transient_witness :
    executeWithFallback ["gemini-2.0-flash-exp", "gemini-1.5-flash", "gemini-1.5-pro"]
        (fun _ => true)
        (fun n => if n == "gemini-1.5-pro" then .ok "resp" else .err "429 quota exceeded")
        "gemini-2.0-flash-exp" = .ok ("resp", "gemini-1.5-pro") :=
  fallback_advances_on_transient.1 "gemini-2.0-flash-exp" "gemini-1.5-flash"
    "gemini-1.5-pro" "resp" "429 quota exceeded" "429 quota exceeded"
    (fun _ => true) _ rfl rfl rfl (by decide) (by decide) (by decide) (by decide) (by decide)

/-- C6 counterexample: when every model fails with a quota error, the
ICD-10 stage does not report a terminal error to the caller — its catch
converts the exhaustion into the stage default, the empty code list. -/
theorem icd10_stage_swallows_exhaustion_cex :
    (generateICD10Codes ["gemini-2.0-flash-exp", "gemini-1.5-flash", "gemini-1.5-pro"]
        (fun _ => true) (fun _ => .err "429 Resource has been exhausted (check quota)")
        "gemini-2.0-flash-exp" (fun _ => none)).map Prod.fst = .ok [] := by rfl

/-- C6 (amended): when all three candidates fail on quota errors, the
executor throws the last underlying error itself (no distinguishable
wrapper value), and the ICD-10 stage catches it and substitutes the empty
list — exhaustion is not terminal for the run in that stage. -/
theorem all_models_exhausted_swallowed (A B C eA eB eC : String)
    (inited : String → Bool) (behavior : String → CallResult)
    (parse : String → Option (List ParsedICDCode))
    (hiA : inited A = true) (hiB : inited B = true) (hiC : inited C = true)
    (hbA : behavior A = .err eA) (hqA : isQuotaError eA = true)
    (hbB : behavior B = .err eB) (hqB : isQuotaError eB = true)
    (hbC : behavior C = .err eC) (hqC : isQuotaError eC = true) :
    executeWithFallback [A, B, C] inited behavior A = .error eC ∧
    (generateICD10Codes [A, B, C] inited behavior A parse).map Prod.fst = .ok [] := by
  have hcand : candidatesFrom [A, B, C] A = [A, B, C] := by
    simp [candidatesFrom, List.dropWhile]
  have hexec : executeWithFallback [A, B, C] inited behavior A = .error eC := by
    simp [executeWithFallback, hcand, fallbackLoop, hiA, hbA, hqA, hiB, hbB, hqB, hiC, hbC, hqC]
  exact ⟨hexec, by simp [generateICD10Codes, hexec, Except.map]⟩

/-- Witness for C6 (amended): three quota failures; the executor surfaces
the raw quota message and the ICD-10 stage returns the empty default. -/
theorem all_models_exhausted_swallowed_witness :
    executeWithFallback ["a", "b", "c"] (fun _ => true) (fun _ => .err "429 quota") "a" =
      .error "429 quota" ∧
    (generateICD10Codes ["a", "b", "c"] (fun _ => true) (fun _ => .err "429 quota") "a"
        (fun _ => none)).map Prod.fst = .ok [] :=
  all_models_exhausted_swallowed "a" "b" "c" "429 quota" "429 quota" "429 quota"
    (fun _ => true) (fun _ => .err "429 quota") (fun _ => none)
    rfl rfl rfl rfl (by decide) rfl (by decide) rfl (by decide)

/-- C7 counterexample: a parse failure in problem extraction does not
terminate the pipeline — the stage completes normally with the empty-list
default instead of throwing. -/
theorem extract_problems_parse_default_cex :
    extractProblems ["g"] (fun _ => true) (fun _ => .ok "I could not produce JSON")
        "g" (fun _ => none) = .ok ([], "g") := by rfl

/-- C7 (amended): only note generation lacks a safe default — its parse
failure throws the pipeline-terminating error — while problem extraction
resolves a parse failure to its §4.3 default, the empty problem list. -/
theorem parse_failure_stage_policy (order : List String) (inited : String → Bool)
    (behavior : String → CallResult) (current : String)
    (parseSoap : String → Option SOAPNote)
    (parseProblems : String → Option (List ParsedProblem))
    (hS : ∀ text cur, executeWithFallback order inited behavior current = .ok (text, cur) →
      parseSoap text = none)
    (hP : ∀ text cur, executeWithFallback order inited behavior current = .ok (text, cur) →
      parseProblems text = none) :
    generateSOAPNote order inited behavior current parseSoap =
      .error "Failed to generate SOAP note" ∧
    (extractProblems order inited behavior current parseProblems).map Prod.fst = .ok [] := by
  cases hx : executeWithFallback order inited behavior current with
  | ok p =>
    exact ⟨by simp [generateSOAPNote, hx, hS p.1 p.2 hx],
           by simp [extractProblems, hx, hP p.1 p.2 hx, Except.map]⟩
  | error e =>
    exact ⟨by simp [generateSOAPNote, hx], by simp [extractProblems, hx, Except.map]⟩

/-- Witness for C7 (amended): the model answers prose; note generation
throws its terminal error while problem extraction returns the empty
default. -/
theorem parse_failure_stage_policy_witness :
    generateSOAPNote ["g"] (fun _ => true) (fun _ => .ok "prose") "g" (fun _ => none) =
      .error "Failed to generate SOAP note" ∧
    (extractProblems ["g"] (fun _ => true) (fun _ => .ok "prose") "g"
        (fun _ => none)).map Prod.fst = .ok [] :=
  parse_failure_stage_policy ["g"] _ _ "g" _ _ (fun _ _ _ => rfl) (fun _ _ _ => rfl)

/-- C5 counterexample: claim softening is not idempotent.  In
"will prevennever fails" the first pass only fires the "never fails" rule,
and its replacement splices with the preceding text to create the new
trigger phrase "will prevent"; a second pass rewrites the text again. -/
theorem soften_not_idempotent_cex :
    (softenMedicalClaims ((softenMedicalClaims "will prevennever fails").text)).text ≠
      (softenMedicalClaims "will prevennever fails").text := by decide

/-- C5 (amended): softening is idempotent on every text whose softened
output contains no trigger phrase — re-softening such output returns it
unchanged with an empty change list. -/
theorem soften_idempotent_on_trigger_free (x : String)
    (h : ∀ r ∈ definitiveClaims,
      ciOccurs r.1.toList ((softenMedicalClaims x).text).toList = false) :
    softenMedicalClaims ((softenMedicalClaims x).text) =
      ⟨(softenMedicalClaims x).text, []⟩ := by
  generalize hy : (softenMedicalClaims x).text = y at h ⊢
  have hfold : definitiveClaims.foldl softenStep (y.toList, []) = (y.toList, []) :=
    foldl_softenStep_fixed _ _ _ h
  unfold softenMedicalClaims
  rw [hfold]
  rfl

/-- Witness for C5 (amended): a text whose softened form is trigger-free
is a fixed point of the second pass. -/
theorem soften_idempotent_on_trigger_free_witness :
    softenMedicalClaims ((softenMedicalClaims "this will cure it").text) =
      ⟨(softenMedicalClaims "this will cure it").text, []⟩ :=
  soften_idempotent_on_trigger_free "this will cure it" (by decide)

/-- Four parsed ICD-10 code objects, one more than the `LLMResponseSchema`
cap of 3, as the coding stage could parse them from a model response. -/
def fourICDParsed : List ParsedICDCode :=
  [⟨"Community-acquired pneumonia", "J18.9", "Pneumonia, unspecified organism", "high"⟩,
   ⟨"Hypertension", "I10", "Essential (primary) hypertension", "high"⟩,
   ⟨"Type 2 diabetes mellitus", "E11.9", "Type 2 diabetes mellitus without complications", "high"⟩,
   ⟨"Cough", "R05", "Cough", "medium"⟩]

/-- Four additional MBS items, one more than the `LLMResponseSchema` cap
of 3 on the billing-item list. -/
def fourMBSItems : List MBSItem :=
  [⟨"721", "GP management plan", "Chronic disease management", "medium"⟩,
   ⟨"723", "Team care arrangements", "Chronic disease management", "medium"⟩,
   ⟨"10990", "Bulk billing incentive", "Eligible patient", "low"⟩,
   ⟨"2713", "Mental health consultation", "Mental health item", "low"⟩]

/-- A parsed billing response proposing the four additional items. -/
def billingParsedFour : ParsedBilling :=
  ⟨some ⟨"36", "Long GP consultation (Level C)", "20-40 minutes",
         "Multiple problems addressed", "high"⟩,
   some fourMBSItems, some "Standard billing applies"⟩

/-- A minimal SOAP note used by the concrete pipeline evaluations. -/
def tinySoap : SOAPNote := ⟨"s", "o", "a", "p"⟩

/-- The final guarded pipeline result assembled from the four-code parse:
`analyzeTranscript`'s `fullResponse` assembly followed by
`applyGuardrails` (with the AI emergency check down, taking the keyword
fallback). -/
def cappedFinalExample : GuardedResponse :=
  applyGuardrails
    (assembleFullResponse tinySoap [] fourICDParsed
      ⟨⟨"36", "Long GP consultation (Level C)", "20-40 minutes",
         "Multiple problems addressed", "high"⟩,
       fourMBSItems, "Standard billing applies"⟩
      "ann")
    "routine review" (Except.error "ai down")

/-- C1: the pipeline does not enforce the schema's cap of 3 on either code
list.  The billing stage passes all four proposed MBS items through, and
the final assembled and guarded result carries four diagnosis codes and
four billing items — the `LLMResponseSchema` caps (imported by the LLM
service but never invoked) are violated. -/
theorem pipeline_code_caps_not_enforced :
    (generateBillingCodes ["g"] (fun _ => true) (fun _ => .ok "resp") "g"
        (fun _ => some billingParsedFour)).map (fun p => p.1.cptCodes) = .ok fourMBSItems ∧
    cappedFinalExample.icd10Codes.length = 4 ∧
    cappedFinalExample.cptCodes.length = 4 ∧
    llmResponseCapsOk cappedFinalExample.icd10Codes cappedFinalExample.cptCodes = false := by
  refine ⟨by rfl, by rfl, by rfl, by rfl⟩

/-- A parsed coding-stage entry whose code fails the ICD-10 pattern. -/
def malformedICDParsed : List ParsedICDCode :=
  [⟨"some problem", "banana", "not a real code", "low"⟩]

/-- A parsed billing item whose item number fails the numeric pattern. -/
def malformedMBS : List MBSItem := [⟨"ABC", "not a real item", "none given", "low"⟩]

/-- The final guarded pipeline result assembled from the malformed parse. -/
def malformedFinalExample : GuardedResponse :=
  applyGuardrails
    (assembleFullResponse tinySoap [] malformedICDParsed
      ⟨⟨"23", "Standard consultation", "6-20 minutes", "j", "low"⟩,
       malformedMBS, "Standard billing applies"⟩
      "ann")
    "routine review two" (Except.error "ai down")

/-- C2: the pipeline does not apply the lexical code patterns of
`validation.ts`.  A model-proposed diagnosis code "banana" (failing
`^[A-Z]\d{2}(\.\d{1,4})?$`) and a billing item "ABC" (failing `^\d{5}$`)
both appear verbatim in the final result instead of being discarded; the
last two conjuncts check the embedded patterns accept well-formed codes. -/
theorem pipeline_code_patterns_not_enforced :
    malformedFinalExample.icd10Codes = [⟨"banana", "not a real code", "low"⟩] ∧
    icd10PatternOk "banana" = false ∧
    malformedFinalExample.cptCodes = [⟨"ABC", "not a real item", "none given", "low"⟩] ∧
    cptPatternOk "ABC" = false ∧
    icd10PatternOk "J18.9" = true ∧
    cptPatternOk "10990" = true := by
  refine ⟨by rfl, by rfl, by rfl, by rfl, by rfl, by rfl⟩
